import Mathlib

/-!
A shallow embedding of `Portfolio_tracker.py`, a command-line stock
portfolio tracker, together with proofs about its operations.

Modelling conventions:
* Prices and balances are rationals (`ℚ`); the Python code works with
  decimal numbers fetched from the price source and rounds with
  `round(x, 2)` (round half to even), embedded here as `round2`.
* A Python dict with insertion order becomes an association list
  `List (String × Holding)`.
* The price source `fetch_stock_data` becomes a function
  `String → Option ℚ` (`none` embeds the `None` returned on a fetch
  error); the Python truthiness tests `if not current_price:` /
  `if current_price:` treat both `None` and a price of `0` as falsy,
  embedded as `truthyPrice`.
* Side effects are made explicit: each mutating operation returns the
  new portfolio, a flag recording whether `save_portfolio` ran, and the
  list of messages printed.  Division by a zero `purchase_price`, which
  Python does not guard (it raises an unhandled `ZeroDivisionError`, or
  yields an infinite value under numpy operands), is embedded as
  `Except.error ()`.
-/

namespace PortfolioTracker

/-- Round-half-to-even of a rational to an integer, as Python's builtin
`round` behaves on exact halves. -/
def roundHalfEven (y : ℚ) : ℤ :=
  let f := ⌊y⌋
  let r := y - (f : ℚ)
  if r < 1/2 then f
  else if 1/2 < r then f + 1
  else if f % 2 = 0 then f else f + 1

/-- `round(x, 2)` from the Python source: round to two decimal places. -/
def round2 (x : ℚ) : ℚ := (roundHalfEven (x * 100) : ℚ) / 100

/-- One holding of the portfolio: the value
`{"quantity": ..., "purchase_price": ...}` stored under a symbol key in
`portfolio["stocks"]`. -/
structure Holding where
  quantity : ℤ
  purchase_price : ℚ
deriving Repr, DecidableEq

/-- The portfolio document `{"stocks": {...}, "total_balance": ...}`;
the dict of stocks becomes an association list in insertion order. -/
structure Portfolio where
  stocks : List (String × Holding)
  total_balance : ℚ
deriving Repr, DecidableEq

/-- The price source `fetch_stock_data`: returns the current price for a
symbol, or `none` when the fetch fails (the function catches every
exception and returns `None`). -/
def Fetch : Type := String → Option ℚ

/-- Python truthiness of the fetched price as used by
`if not current_price:` (add_stock, view_portfolio) and
`if current_price:` (update_total_balance): `None` and `0` are both
falsy, every other price is truthy. -/
def truthyPrice : Option ℚ → Option ℚ
  | none => none
  | some p => if p = 0 then none else some p

/-- The sum computed by the loop of `update_total_balance`: for every
holding fetch the current price; a falsy result (failed fetch or zero
price) contributes nothing. -/
def balanceSum (fetch : Fetch) (stocks : List (String × Holding)) : ℚ :=
  stocks.foldl
    (fun acc sd =>
      match truthyPrice (fetch sd.1) with
      | some cp => acc + (sd.2.quantity : ℚ) * cp
      | none => acc) 0

/-- `update_total_balance(portfolio)`: replaces `total_balance` with the
sum over all holdings of quantity × fetched current price, holdings with
a failed fetch excluded, rounded to two decimals. -/
def update_total_balance (fetch : Fetch) (p : Portfolio) : Portfolio :=
  { p with total_balance := round2 (balanceSum fetch p.stocks) }

/-- The outcome of a mutating operation: the resulting portfolio, whether
`save_portfolio` was called, and the messages printed. -/
structure OpResult where
  portfolio : Portfolio
  saved : Bool
  messages : List String
deriving Repr, DecidableEq

/-- `add_stock(portfolio, symbol, quantity)`: uppercases the symbol and
fetches its price; on a falsy price it reports failure and returns with
no change and no save.  Otherwise it increments the quantity in place if
the symbol is already held (purchase_price untouched), or inserts a new
holding with `purchase_price` equal to the price fetched now; then it
recomputes the balance and saves. -/
def add_stock (fetch : Fetch) (p : Portfolio) (symbol : String) (quantity : ℤ) :
    OpResult :=
  let sym := symbol.toUpper
  match truthyPrice (fetch sym) with
  | none =>
    { portfolio := p, saved := false,
      messages := ["Failed to fetch data for " ++ sym ++ ". Stock not added."] }
  | some current_price =>
    let exists_already := (p.stocks.lookup sym).isSome
    let stocks' :=
      if exists_already then
        p.stocks.map (fun sd =>
          if sd.1 = sym then (sd.1, { sd.2 with quantity := sd.2.quantity + quantity })
          else sd)
      else
        p.stocks ++ [(sym, { quantity := quantity, purchase_price := current_price })]
    let p' := update_total_balance fetch { p with stocks := stocks' }
    { portfolio := p', saved := true,
      messages :=
        (if exists_already then
          [sym ++ " already exists in your portfolio. Updating quantity."] else []) ++
        ["Added " ++ toString quantity ++ " shares of " ++ sym ++
         " at the current price of $" ++ toString (round2 current_price) ++ "."] }

/-- `remove_stock(portfolio, symbol)`: uppercases the symbol; if present,
deletes that entry, recomputes the balance and saves; if absent, reports
"not in your portfolio" and changes nothing. -/
def remove_stock (fetch : Fetch) (p : Portfolio) (symbol : String) : OpResult :=
  let sym := symbol.toUpper
  if (p.stocks.lookup sym).isSome then
    let p' := update_total_balance fetch
      { p with stocks := p.stocks.filter (fun sd => sd.1 != sym) }
    { portfolio := p', saved := true,
      messages := ["Removed " ++ sym ++ " from your portfolio."] }
  else
    { portfolio := p, saved := false,
      messages := [sym ++ " is not in your portfolio."] }

/-- A display row appended to `data` in `view_portfolio`. -/
structure Row where
  stock : String
  quantity : ℤ
  purchase_price : ℚ
  current_price : ℚ
  current_value : ℚ
  profit_loss : ℚ
  profit_loss_percentage : ℚ
deriving Repr, DecidableEq

/-- The per-holding body of the loop in `view_portfolio`: fetch the
current price; on a falsy price the row is skipped (`ok none`).
Otherwise compute current value, profit/loss and percentage, each
rounded to two decimals for display.  The percentage divides by
`purchase_price` with no guard in the source; a zero `purchase_price`
is an unhandled division error there, embedded as `error ()`. -/
def compute_row (fetch : Fetch) (stock : String) (details : Holding) :
    Except Unit (Option Row) :=
  match truthyPrice (fetch stock) with
  | none => .ok none
  | some current_price =>
    if details.purchase_price = 0 then .error ()
    else
      .ok (some
        { stock := stock
          quantity := details.quantity
          purchase_price := round2 details.purchase_price
          current_price := round2 current_price
          current_value := round2 ((details.quantity : ℚ) * current_price)
          profit_loss := round2 ((current_price - details.purchase_price) * (details.quantity : ℚ))
          profit_loss_percentage :=
            round2 ((current_price - details.purchase_price) / details.purchase_price * 100) })

/-- The row-collecting loop of `view_portfolio` over the stocks list: a
skipped holding (`ok none`) contributes nothing, an unhandled division
error aborts the whole view. -/
def view_rows (fetch : Fetch) : List (String × Holding) → Except Unit (List Row)
  | [] => .ok []
  | sd :: rest =>
    match compute_row fetch sd.1 sd.2 with
    | .error e => .error e
    | .ok none => view_rows fetch rest
    | .ok (some row) =>
      match view_rows fetch rest with
      | .error e => .error e
      | .ok rs => .ok (row :: rs)

/-- What `view_portfolio` prints and writes: its messages, the rows
displayed, the total shown (the cached `total_balance`, rounded), whether
the export prompt was shown, whether the CSV file was written, and
whether the portfolio was persisted (it never is: the function calls
neither `save_portfolio` nor any mutation). -/
structure ViewResult where
  messages : List String
  rows : List Row
  displayed_total : Option ℚ
  export_prompt : Bool
  csv_written : Bool
  saved : Bool
deriving Repr, DecidableEq

/-- `view_portfolio(portfolio)`: on an empty stocks dict it prints
"Your portfolio is empty." and returns at once (no export prompt, no
file write).  Otherwise it computes the rows, displays them with the
cached `total_balance` rounded to two decimals, and prompts for CSV
export, writing the file exactly when the stripped, lowercased answer is
"yes".  The portfolio itself is only read, never written or saved. -/
def view_portfolio (fetch : Fetch) (exportAnswer : String) (p : Portfolio) :
    Except Unit ViewResult :=
  if p.stocks.isEmpty then
    .ok { messages := ["Your portfolio is empty."], rows := [],
          displayed_total := none, export_prompt := false,
          csv_written := false, saved := false }
  else
    match view_rows fetch p.stocks with
    | .error e => .error e
    | .ok rows =>
      .ok { messages := ["Fetching real-time stock data...", "Portfolio Performance:"],
            rows := rows,
            displayed_total := some (round2 p.total_balance),
            export_prompt := true,
            csv_written := (exportAnswer.trim.toLower == "yes"),
            saved := false }

/-- The quantity parsing of the interactive shell's Add branch:
`int(input(...))` with `ValueError` caught — a non-numeric string yields
`none` (the shell prints "Invalid input" and aborts the operation), any
integer string (including a negative one) yields its value. -/
def parse_quantity (s : String) : Option ℤ := s.trim.toInt?

/-- The Add branch of `main`: read a symbol, parse the quantity; on a
parse failure report invalid input and change nothing, otherwise call
`add_stock` with the parsed integer.  No positivity check is made. -/
def shell_add (fetch : Fetch) (p : Portfolio) (symbolInput quantityInput : String) :
    OpResult :=
  match parse_quantity quantityInput with
  | none =>
    { portfolio := p, saved := false,
      messages := ["Invalid input. Please try again."] }
  | some q => add_stock fetch p (symbolInput.trim.toUpper) q

/-- A JSON-like document value, as much of JSON as the persisted
portfolio file uses: numbers and string-keyed objects. -/
inductive Json where
  | num : ℚ → Json
  | obj : List (String × Json) → Json

/-- Serialization of one holding by `save_portfolio` (`json.dump`). -/
def encodeHolding (h : Holding) : Json :=
  .obj [("quantity", .num (h.quantity : ℚ)), ("purchase_price", .num h.purchase_price)]

/-- Serialization of the whole portfolio document by `save_portfolio`. -/
def save_portfolio (p : Portfolio) : Json :=
  .obj [("stocks", .obj (p.stocks.map (fun sd => (sd.1, encodeHolding sd.2)))),
        ("total_balance", .num p.total_balance)]

/-- Parsing one holding back from the persisted document. -/
def decodeHolding : Json → Option Holding
  | .obj [("quantity", .num q), ("purchase_price", .num pp)] =>
    if q.den = 1 then some { quantity := q.num, purchase_price := pp } else none
  | _ => none

/-- Parsing the stocks object back from the persisted document. -/
def decodeStocks : List (String × Json) → Option (List (String × Holding))
  | [] => some []
  | (s, j) :: rest => do
    let h ← decodeHolding j
    let rs ← decodeStocks rest
    pure ((s, h) :: rs)

/-- `load_portfolio()`: when no file exists (`none`) it returns the empty
portfolio `{"stocks": {}, "total_balance": 0.0}`; otherwise it reads the
persisted JSON document back (`json.load`). -/
def load_portfolio : Option Json → Option Portfolio
  | none => some { stocks := [], total_balance := 0 }
  | some (.obj [("stocks", .obj l), ("total_balance", .num tb)]) => do
    let st ← decodeStocks l
    pure { stocks := st, total_balance := tb }
  | some _ => none

/-! ### Helper lemmas -/

/-- Looking a key up after the in-place quantity update of `add_stock`
updates exactly the looked-up holding. -/
lemma lookup_map_update (sym : String) (q : ℤ) (l : List (String × Holding)) :
    (l.map fun sd =>
        if sd.1 = sym then (sd.1, { sd.2 with quantity := sd.2.quantity + q }) else sd).lookup
        sym
      = (l.lookup sym).map fun h => { h with quantity := h.quantity + q } := by
  induction l with
  | nil => rfl
  | cons sd rest ih =>
    obtain ⟨k, v⟩ := sd
    by_cases hk : k = sym
    · subst hk
      rw [List.map_cons, if_pos (show ((k, v) : String × Holding).1 = k from rfl)]
      simp [List.lookup]
    · have hbk : (sym == k) = false := by
        rw [beq_eq_false_iff_ne]
        exact Ne.symm hk
      rw [List.map_cons, if_neg (show ¬((k, v) : String × Holding).1 = sym from hk)]
      simp only [List.lookup, hbk, ih]

/-- Looking up a freshly appended key finds the appended holding when the
key was absent before. -/
lemma lookup_append_new (sym : String) (h : Holding) (l : List (String × Holding))
    (habs : l.lookup sym = none) :
    (l ++ [(sym, h)]).lookup sym = some h := by
  induction l with
  | nil => simp [List.lookup]
  | cons sd rest ih =>
    obtain ⟨k, v⟩ := sd
    by_cases hk : sym = k
    · subst hk
      simp only [List.lookup, beq_self_eq_true] at habs
      exact absurd habs (Option.some_ne_none v)
    · have hbk : (sym == k) = false := by
        rw [beq_eq_false_iff_ne]
        exact hk
      simp only [List.lookup, hbk] at habs
      simp only [List.cons_append, List.lookup, hbk]
      exact ih habs

/-- Two price sources with the same truthy prices give the same balance sum. -/
lemma balanceSum_congr (fetch fetchF : Fetch)
    (hag : ∀ t, truthyPrice (fetch t) = truthyPrice (fetchF t)) :
    ∀ l : List (String × Holding), balanceSum fetch l = balanceSum fetchF l := by
  have aux : ∀ (l : List (String × Holding)) (a : ℚ),
      l.foldl
          (fun acc sd =>
            match truthyPrice (fetch sd.1) with
            | some cp => acc + (sd.2.quantity : ℚ) * cp
            | none => acc) a
        = l.foldl
            (fun acc sd =>
              match truthyPrice (fetchF sd.1) with
              | some cp => acc + (sd.2.quantity : ℚ) * cp
              | none => acc) a := by
    intro l
    induction l with
    | nil => intro a; rfl
    | cons sd rest ih =>
      intro a
      simp only [List.foldl]
      rw [hag sd.1]
      exact ih _
  intro l
  exact aux l 0

/-- Two price sources with the same truthy prices give the same balance update. -/
lemma update_total_balance_congr (fetch fetchF : Fetch)
    (hag : ∀ t, truthyPrice (fetch t) = truthyPrice (fetchF t)) (p : Portfolio) :
    update_total_balance fetch p = update_total_balance fetchF p := by
  simp only [update_total_balance, balanceSum_congr fetch fetchF hag]

/-- Two price sources with the same truthy prices compute the same row. -/
lemma compute_row_congr (fetch fetchF : Fetch)
    (hag : ∀ t, truthyPrice (fetch t) = truthyPrice (fetchF t))
    (stock : String) (d : Holding) :
    compute_row fetch stock d = compute_row fetchF stock d := by
  simp only [compute_row, hag stock]

/-- Two price sources with the same truthy prices give the same view rows. -/
lemma view_rows_congr (fetch fetchF : Fetch)
    (hag : ∀ t, truthyPrice (fetch t) = truthyPrice (fetchF t)) :
    ∀ l : List (String × Holding), view_rows fetch l = view_rows fetchF l := by
  intro l
  induction l with
  | nil => rfl
  | cons sd rest ih =>
    simp only [view_rows, compute_row_congr fetch fetchF hag, ih]

/-- Two price sources with the same truthy prices behave the same in `add_stock`. -/
lemma add_stock_congr (fetch fetchF : Fetch)
    (hag : ∀ t, truthyPrice (fetch t) = truthyPrice (fetchF t))
    (p : Portfolio) (s : String) (q : ℤ) :
    add_stock fetch p s q = add_stock fetchF p s q := by
  simp only [add_stock, hag, update_total_balance, balanceSum_congr fetch fetchF hag]

/-- Two price sources with the same truthy prices behave the same in
`view_portfolio`. -/
lemma view_portfolio_congr (fetch fetchF : Fetch)
    (hag : ∀ t, truthyPrice (fetch t) = truthyPrice (fetchF t))
    (ans : String) (p : Portfolio) :
    view_portfolio fetch ans p = view_portfolio fetchF ans p := by
  simp only [view_portfolio, view_rows_congr fetch fetchF hag]

/-- Decoding inverts the holding serialization. -/
lemma decodeHolding_encodeHolding (h : Holding) :
    decodeHolding (encodeHolding h) = some h := by
  simp [decodeHolding, encodeHolding, Rat.den_intCast, Rat.num_intCast]

/-- Decoding inverts the stocks-object serialization. -/
lemma decodeStocks_map_encode (l : List (String × Holding)) :
    decodeStocks (l.map fun sd => (sd.1, encodeHolding sd.2)) = some l := by
  induction l with
  | nil => rfl
  | cons sd rest ih =>
    simp [decodeStocks, decodeHolding_encodeHolding, ih]

/-! ### Claims -/

/-- C1: the claim asks that a holding with `purchase_price = 0` make the
per-row valuation fail with a defined error that reports and omits the
row.  The code instead divides by `purchase_price` with no guard, so the
whole view aborts with an unhandled division error: on the portfolio
holding AAPL with quantity 10 and purchase price 0, with the current
price fetched as 55, `compute_row` and `view_portfolio` both end in the
division error rather than omitting the row. -/
theorem view_portfolio_zero_purchase_price_crashes :
    view_portfolio (fun _ => some 55) "no"
        { stocks := [("AAPL", { quantity := 10, purchase_price := 0 })], total_balance := 100 }
      = .error ()
    ∧ compute_row (fun _ => some 55) "AAPL" { quantity := 10, purchase_price := 0 }
      = .error () :=
  ⟨rfl, rfl⟩

/-- C2: if the price fetch fails during `add_stock`, the operation is a
no-op: the portfolio is returned exactly unchanged, nothing is persisted,
and the failure is reported. -/
theorem add_stock_fetch_failure_noop (fetch : Fetch) (p : Portfolio) (s : String)
    (q : ℤ) (hfail : truthyPrice (fetch s.toUpper) = none) :
    add_stock fetch p s q =
      { portfolio := p, saved := false,
        messages := ["Failed to fetch data for " ++ s.toUpper ++ ". Stock not added."] } := by
  simp only [add_stock, hfail]

/-- C2 witness: adding aapl to a one-stock portfolio when every fetch
fails leaves the portfolio unchanged and unsaved. -/
theorem add_stock_fetch_failure_noop_witness :
    add_stock (fun _ => none)
        { stocks := [("MSFT", { quantity := 2, purchase_price := 7 })], total_balance := 14 }
        "aapl" 5
      = { portfolio :=
            { stocks := [("MSFT", { quantity := 2, purchase_price := 7 })], total_balance := 14 },
          saved := false,
          messages := ["Failed to fetch data for " ++ "aapl".toUpper ++ ". Stock not added."] } :=
  add_stock_fetch_failure_noop (fun _ => none)
    { stocks := [("MSFT", { quantity := 2, purchase_price := 7 })], total_balance := 14 }
    "aapl" 5 rfl

/-- C7: loading after saving reproduces every field of the portfolio
document exactly. -/
theorem portfolio_save_load_roundtrip (P : Portfolio) :
    load_portfolio (some (save_portfolio P)) = some P := by
  simp only [load_portfolio, save_portfolio, decodeStocks_map_encode, Option.bind_some]
  rfl

/-- C8: with a successful fetch the valuation row is
current_value = quantity × current_price,
profit_loss = (current_price − purchase_price) × quantity and
profit_loss_percentage = (current_price − purchase_price) / purchase_price × 100,
each rounded to two decimals; at quantity 10, purchase price 50 and
current price 55 this gives 550.00, 50.00 and 10.00. -/
theorem compute_row_valuation_arithmetic (fetch : Fetch) (stock : String)
    (d : Holding) (cp : ℚ) (hf : truthyPrice (fetch stock) = some cp)
    (hpp : d.purchase_price ≠ 0) :
    (compute_row fetch stock d =
      .ok (some
        { stock := stock, quantity := d.quantity,
          purchase_price := round2 d.purchase_price,
          current_price := round2 cp,
          current_value := round2 ((d.quantity : ℚ) * cp),
          profit_loss := round2 ((cp - d.purchase_price) * (d.quantity : ℚ)),
          profit_loss_percentage :=
            round2 ((cp - d.purchase_price) / d.purchase_price * 100) }))
    ∧ compute_row (fun _ => some 55) "AAPL" { quantity := 10, purchase_price := 50 }
      = .ok (some
          { stock := "AAPL", quantity := 10, purchase_price := 50, current_price := 55,
            current_value := 550, profit_loss := 50, profit_loss_percentage := 10 }) := by
  refine ⟨?_, by with_unfolding_all rfl⟩
  simp only [compute_row, hf, if_neg hpp]

/-- C8 witness: the valuation of the holding with quantity 10 and
purchase price 50 at current price 55. -/
theorem compute_row_valuation_arithmetic_witness :
    compute_row (fun _ => some 55) "AAPL" { quantity := 10, purchase_price := 50 }
      = .ok (some
          { stock := "AAPL", quantity := 10,
            purchase_price := round2 50, current_price := round2 55,
            current_value := round2 ((10 : ℚ) * 55),
            profit_loss := round2 (((55 : ℚ) - 50) * 10),
            profit_loss_percentage := round2 (((55 : ℚ) - 50) / 50 * 100) }) :=
  (compute_row_valuation_arithmetic (fun _ => some 55) "AAPL"
    { quantity := 10, purchase_price := 50 } 55 rfl (by decide)).1

/-- C3 counterexample: the claim says the interactive shell validates
that the quantity is a positive integer before calling `add_stock`, so
that no holding is ever created with a zero or negative quantity.  The
shell only catches the non-numeric case: the input "-5" parses to the
integer -5, is passed to `add_stock`, and on a successful fetch at price
100 a holding with quantity -5 < 0 is created and persisted. -/
theorem shell_accepts_negative_quantity_cex :
    parse_quantity "-5" = some (-5)
      ∧ (shell_add (fun _ => some 100) ⟨[], 0⟩ "AAPL" "-5").portfolio.stocks
          = [("AAPL", { quantity := -5, purchase_price := 100 })]
      ∧ (shell_add (fun _ => some 100) ⟨[], 0⟩ "AAPL" "-5").saved = true
      ∧ (-5 : ℤ) < 0 := by
  refine ⟨by with_unfolding_all rfl, by with_unfolding_all rfl,
    by with_unfolding_all rfl, by decide⟩

/-- C3 amended: the shell validates only that the quantity input parses
as an integer (non-numeric input is rejected); any parsed integer,
including zero or a negative one, is passed unchanged to `add_stock`,
which stores it as the quantity of the created holding. -/
theorem shell_quantity_integer_only_validation (fetch : Fetch) (p : Portfolio)
    (sIn qIn s : String) (q : ℤ) (cp : ℚ)
    (hq : parse_quantity qIn = some q)
    (habs : p.stocks.lookup s.toUpper = none)
    (hf : truthyPrice (fetch s.toUpper) = some cp) :
    shell_add fetch p sIn qIn = add_stock fetch p sIn.trim.toUpper q
      ∧ (add_stock fetch p s q).portfolio.stocks.lookup s.toUpper
          = some { quantity := q, purchase_price := cp } := by
  constructor
  · simp only [shell_add, hq]
  · simp only [add_stock, hf, update_total_balance, habs, Option.isSome_none,
      Bool.false_eq_true, if_false]
    exact lookup_append_new _ _ _ habs

/-- C3 amended witness: the input "-5" parses and the resulting holding
stores quantity -5. -/
theorem shell_quantity_integer_only_validation_witness :
    shell_add (fun _ => some 100) ⟨[], 0⟩ "AAPL" "-5"
        = add_stock (fun _ => some 100) ⟨[], 0⟩ "AAPL".trim.toUpper (-5)
      ∧ (add_stock (fun _ => some 100) ⟨[], 0⟩ "AAPL" (-5)).portfolio.stocks.lookup
            "AAPL".toUpper
          = some { quantity := -5, purchase_price := 100 } :=
  shell_quantity_integer_only_validation (fun _ => some 100) ⟨[], 0⟩ "AAPL" "-5"
    "AAPL" (-5) 100 (by with_unfolding_all rfl) rfl rfl

/-- C4: re-adding a held symbol with a successful fetch increments its
quantity in place and leaves the stored purchase price as recorded at
the first add; a fresh symbol gets a new holding at the price fetched
now; and adding AAPL quantity 5 at price 100 then quantity 3 at price
110 yields the single holding {quantity 8, purchase_price 100}. -/
theorem add_stock_quantity_accumulation (fetch : Fetch) (p : Portfolio) (s : String)
    (q : ℤ) (cp : ℚ) (hf : truthyPrice (fetch s.toUpper) = some cp) :
    ((∀ h0 : Holding, p.stocks.lookup s.toUpper = some h0 →
        (add_stock fetch p s q).portfolio.stocks.lookup s.toUpper =
          some { quantity := h0.quantity + q, purchase_price := h0.purchase_price })
      ∧ (p.stocks.lookup s.toUpper = none →
        (add_stock fetch p s q).portfolio.stocks.lookup s.toUpper =
          some { quantity := q, purchase_price := cp }))
    ∧ (add_stock (fun _ => some 110)
          (add_stock (fun _ => some 100) ⟨[], 0⟩ "AAPL" 5).portfolio "AAPL" 3).portfolio.stocks
        = [("AAPL", { quantity := 8, purchase_price := 100 })] := by
  refine ⟨⟨?_, ?_⟩, by with_unfolding_all rfl⟩
  · intro h0 hl
    simp only [add_stock, hf, update_total_balance, hl, Option.isSome_some, if_true,
      lookup_map_update]
    rfl
  · intro hl
    simp only [add_stock, hf, update_total_balance, hl, Option.isSome_none,
      Bool.false_eq_true, if_false]
    exact lookup_append_new _ _ _ hl

/-- C4 witness: the two concrete adds of AAPL, with the second add
looked at through the in-place increment clause. -/
theorem add_stock_quantity_accumulation_witness :
    (add_stock (fun _ => some 110)
        { stocks := [("AAPL", { quantity := 5, purchase_price := 100 })], total_balance := 500 }
        "AAPL" 3).portfolio.stocks.lookup "AAPL".toUpper
      = some { quantity := 5 + 3, purchase_price := 100 } :=
  (add_stock_quantity_accumulation (fun _ => some 110)
      { stocks := [("AAPL", { quantity := 5, purchase_price := 100 })], total_balance := 500 }
      "AAPL" 3 110 (by with_unfolding_all rfl)).1.1
    { quantity := 5, purchase_price := 100 } (by with_unfolding_all rfl)

/-- C5: removing an absent symbol reports "not in your portfolio" and
leaves stocks and total_balance unchanged with no save; removing a
present symbol deletes exactly the entries with that key, recomputes the
balance over the remaining holdings, and saves. -/
theorem remove_stock_correctness (fetch : Fetch) (p : Portfolio) (s : String) :
    (p.stocks.lookup s.toUpper = none →
      remove_stock fetch p s =
        { portfolio := p, saved := false,
          messages := [s.toUpper ++ " is not in your portfolio."] })
    ∧ ((p.stocks.lookup s.toUpper).isSome →
      remove_stock fetch p s =
        { portfolio :=
            { stocks := p.stocks.filter (fun sd => sd.1 != s.toUpper),
              total_balance :=
                round2 (balanceSum fetch (p.stocks.filter (fun sd => sd.1 != s.toUpper))) },
          saved := true,
          messages := ["Removed " ++ s.toUpper ++ " from your portfolio."] }) := by
  constructor
  · intro h
    simp only [remove_stock, h, Option.isSome_none, Bool.false_eq_true, if_false]
  · intro h
    simp only [remove_stock, update_total_balance, h, if_true]

/-- C5 witness: removing msft from a two-stock portfolio deletes that
entry, recomputes the balance from the remaining AAPL holding at the
fetched price 10, and saves. -/
theorem remove_stock_correctness_witness :
    remove_stock (fun _ => some 10)
        { stocks := [("AAPL", { quantity := 3, purchase_price := 5 }),
                     ("MSFT", { quantity := 2, purchase_price := 7 })], total_balance := 99 }
        "msft"
      = { portfolio :=
            { stocks := [("AAPL", { quantity := 3, purchase_price := 5 }),
                         ("MSFT", { quantity := 2, purchase_price := 7 })].filter
                (fun sd => sd.1 != "msft".toUpper),
              total_balance :=
                round2 (balanceSum (fun _ => some 10)
                  ([("AAPL", { quantity := 3, purchase_price := 5 }),
                    ("MSFT", { quantity := 2, purchase_price := 7 })].filter
                    (fun sd => sd.1 != "msft".toUpper))) },
          saved := true,
          messages := ["Removed " ++ "msft".toUpper ++ " from your portfolio."] } :=
  (remove_stock_correctness (fun _ => some 10)
      { stocks := [("AAPL", { quantity := 3, purchase_price := 5 }),
                   ("MSFT", { quantity := 2, purchase_price := 7 })], total_balance := 99 }
      "msft").2 (by with_unfolding_all rfl)

/-- C6: after a mutating operation (an add with successful fetch, or a
remove of a present symbol) the stored total_balance equals the sum over
the resulting holdings of quantity × latest fetched price, holdings with
a failed fetch contributing zero, rounded to two decimals; and with two
holdings of which one fetch fails, `update_total_balance` sums only the
successful one. -/
theorem total_balance_invariant_after_mutation (fetch : Fetch) (p : Portfolio)
    (s : String) (q : ℤ) (cp : ℚ) :
    ((truthyPrice (fetch s.toUpper) = some cp →
        (add_stock fetch p s q).portfolio.total_balance
          = round2 (balanceSum fetch (add_stock fetch p s q).portfolio.stocks))
      ∧ ((p.stocks.lookup s.toUpper).isSome →
        (remove_stock fetch p s).portfolio.total_balance
          = round2 (balanceSum fetch (remove_stock fetch p s).portfolio.stocks)))
    ∧ (update_total_balance (fun t => if t = "AAPL" then some 10 else none)
          { stocks := [("AAPL", { quantity := 3, purchase_price := 5 }),
                       ("MSFT", { quantity := 2, purchase_price := 7 })],
            total_balance := 99 }).total_balance
        = round2 ((3 : ℚ) * 10) := by
  refine ⟨⟨?_, ?_⟩, by with_unfolding_all rfl⟩
  · intro hf
    simp only [add_stock, hf, update_total_balance]
  · intro hr
    simp only [remove_stock, hr, update_total_balance, if_true]

/-- C6 witness: adding AAPL to an empty portfolio at fetched price 10
leaves total_balance equal to the rounded balance sum of the result. -/
theorem total_balance_invariant_after_mutation_witness :
    (add_stock (fun _ => some 10) ⟨[], 0⟩ "AAPL" 2).portfolio.total_balance
      = round2 (balanceSum (fun _ => some 10)
          (add_stock (fun _ => some 10) ⟨[], 0⟩ "AAPL" 2).portfolio.stocks) :=
  (total_balance_invariant_after_mutation (fun _ => some 10) ⟨[], 0⟩ "AAPL" 2 10).1.1
    (by with_unfolding_all rfl)

/-- C9: viewing is read-only: `view_portfolio` takes the portfolio as a
value and returns only display output, never a modified portfolio, and
on every path its result records no persistence write; the total it
displays is the cached total_balance of the last mutation, rounded, not
a recomputed value; on an empty portfolio it reports the empty state and
does no further work: no export prompt and no CSV write. -/
theorem view_portfolio_pure_and_empty_case (fetch : Fetch) (ans : String) (p : Portfolio) :
    (p.stocks = [] →
      view_portfolio fetch ans p =
        .ok { messages := ["Your portfolio is empty."], rows := [],
              displayed_total := none, export_prompt := false,
              csv_written := false, saved := false })
    ∧ (∀ r : ViewResult, view_portfolio fetch ans p = .ok r →
        r.saved = false
          ∧ (p.stocks ≠ [] → r.displayed_total = some (round2 p.total_balance))) := by
  constructor
  · intro h
    simp [view_portfolio, h]
  · intro r hr
    cases hemp : p.stocks.isEmpty with
    | true =>
      simp only [view_portfolio, hemp, if_true] at hr
      injection hr with h
      subst h
      refine ⟨rfl, fun hne => absurd ?_ hne⟩
      exact List.isEmpty_iff.mp hemp
    | false =>
      simp only [view_portfolio, hemp, Bool.false_eq_true, if_false] at hr
      cases hvr : view_rows fetch p.stocks with
      | error e =>
        rw [hvr] at hr
        exact absurd hr (by simp)
      | ok rows =>
        rw [hvr] at hr
        injection hr with h
        subst h
        exact ⟨rfl, fun _ => rfl⟩

/-- C9 witness: viewing the empty portfolio reports the empty state with
no prompt, no CSV write and no save. -/
theorem view_portfolio_pure_and_empty_case_witness :
    view_portfolio (fun _ => some 5) "yes" ⟨[], 42⟩ =
      .ok { messages := ["Your portfolio is empty."], rows := [],
            displayed_total := none, export_prompt := false,
            csv_written := false, saved := false } :=
  (view_portfolio_pure_and_empty_case (fun _ => some 5) "yes" ⟨[], 42⟩).1 rfl

/-- C10: a fetched price of exactly 0 is falsy in Python, so every
operation treats it like a fetch failure: `add_stock` aborts with the
failure message, portfolio unchanged and nothing saved, and any price
source returning 0 is indistinguishable from one returning a failure in
`add_stock`, `update_total_balance` and `view_portfolio`. -/
theorem zero_price_indistinguishable_from_failure (fetch fetchF : Fetch)
    (p : Portfolio) (s ans : String) (q : ℤ)
    (hagree : ∀ t, truthyPrice (fetch t) = truthyPrice (fetchF t))
    (hz : fetch s.toUpper = some 0) :
    (add_stock fetch p s q =
      { portfolio := p, saved := false,
        messages := ["Failed to fetch data for " ++ s.toUpper ++ ". Stock not added."] })
    ∧ add_stock fetch p s q = add_stock fetchF p s q
    ∧ update_total_balance fetch p = update_total_balance fetchF p
    ∧ view_portfolio fetch ans p = view_portfolio fetchF ans p := by
  have hz' : truthyPrice (fetch s.toUpper) = none := by
    rw [hz]
    simp [truthyPrice]
  refine ⟨?_, add_stock_congr fetch fetchF hagree p s q,
    update_total_balance_congr fetch fetchF hagree p,
    view_portfolio_congr fetch fetchF hagree ans p⟩
  simp only [add_stock, hz']

/-- C10 witness: a source quoting 0 for everything behaves exactly like
a source failing on everything. -/
theorem zero_price_indistinguishable_from_failure_witness :
    add_stock (fun _ => some 0)
        { stocks := [("MSFT", { quantity := 2, purchase_price := 7 })], total_balance := 14 }
        "AAPL" 5
      = add_stock (fun _ => none)
          { stocks := [("MSFT", { quantity := 2, purchase_price := 7 })], total_balance := 14 }
          "AAPL" 5 :=
  (zero_price_indistinguishable_from_failure (fun _ => some 0) (fun _ => none)
      { stocks := [("MSFT", { quantity := 2, purchase_price := 7 })], total_balance := 14 }
      "AAPL" "no" 5 (fun _ => by with_unfolding_all rfl)
      (by with_unfolding_all rfl)).2.1

end PortfolioTracker
